import Mathlib

/-!
Verification of the discord sound-bot (src/main.rs) against its specification.

The embedding models the `set` command pipeline (`set`, `save_audio`,
`track_from`), the sound registry (a map from guild id to a cached track,
`SoundStore`), and the voice-state handler (`voice_state_update`, `is_bot`,
`joined_channel`).  External collaborators (attachment download, file
creation/write, ffmpeg decode, in-memory caching, voice join) are modelled as
oracles bundled in `Env` / `VoiceEnv`; observable behaviour (replies, warning
logs, voice joins, playback starts) is collected in a list of `Effect`s.
-/

namespace DiscordBot

/-- Guild identifier (serenity `GuildId`, a u64; modelled as `Nat`). -/
abbrev GuildId := Nat

/-- Voice channel identifier (serenity `ChannelId`; modelled as `Nat`). -/
abbrev ChannelId := Nat

/-- A cached in-memory track (songbird `Memory`); modelled as an opaque id. -/
abbrev Track := Nat

/-- Downloaded attachment bytes. -/
abbrev Bytes := List Nat

/-- Audio errors (`songbird::input::error::Error`); modelled as strings. -/
abbrev AudioError := String

/-- A message attachment: its filename plus an id standing for the blob it
references (used by the download oracle). -/
structure Attachment where
  filename : String
  blob : Nat
deriving DecidableEq

/-- The slice of a serenity `Message` the `set` command reads: the optional
guild id and the attachment list. -/
structure MessageM where
  guild_id : Option GuildId
  attachments : List Attachment
deriving DecidableEq

/-- Oracle for the external collaborators of the `set` pipeline:
`env::temp_dir()`, `Attachment::download`, `File::create`,
`File::write_all`, `input::ffmpeg`, `Memory::new`. -/
structure Env where
  temp_dir : String
  download : Attachment → Except String Bytes
  create_file : String → Except String Unit
  write_file : String → Bytes → Except String Unit
  ffmpeg : String → Except AudioError Nat
  memory_new : Nat → Except AudioError Track

/-- Observable effects of a handler run: replies sent to the user, warnings
logged, voice-channel joins, playback starts, and the installation of the
track-end disconnect handler. -/
inductive Effect where
  | reply (text : String)
  | log_warn (text : String)
  | join (gid : GuildId) (ch : ChannelId)
  | play (gid : GuildId) (track : Track)
  | schedule_disconnect
deriving DecidableEq

/-- The sound registry: `HashMap<GuildId, Memory>` (the `SoundStore` typemap
entry), modelled as a total function into `Option`. -/
abbrev SoundStore := GuildId → Option Track

/-- Model of `HashMap::insert` on the sound store (src/main.rs:124). -/
def SoundStore.insert (s : SoundStore) (g : GuildId) (t : Track) : SoundStore :=
  Function.update s g (some t)

/-- Model of `HashMap::get` on the sound store (src/main.rs:193). -/
def SoundStore.get (s : SoundStore) (g : GuildId) : Option Track := s g

/-- Reply text for more than one attachment (src/main.rs:72). -/
def TOO_MUCH_ATTACH_MSG : String :=
  "Vou usar só o primeiro arquivo que tu mandou, o resto eu to ignorando!!"

/-- Reply text for a message with no attachment (src/main.rs:88). -/
def NO_AUDIO_MSG : String := "Cadê o áudio carai??"

/-- Success confirmation reply (src/main.rs:102). -/
def OK_MSG : String := "Blz, vou tocar esse áudio aí!!"

/-- Generic failure reply (src/main.rs:107). -/
def FAIL_MSG : String := "Deu pau"

/-- The scratch path computed by `track_from`:
`env::temp_dir().join(format!("{}{}", gid, name))` (src/main.rs:138).
`GuildId`'s display is its decimal representation, hence `Nat.repr`. -/
def scratch_path (temp_dir : String) (gid : GuildId) (name : String) : String :=
  temp_dir ++ "/" ++ Nat.repr gid ++ name

/-- The scratch-write phase of `track_from` (src/main.rs:140-147): create the
file and write the bytes; both failures are logged via `warn!` and otherwise
ignored. Returns the log effects it produced. -/
def write_log (env : Env) (path : String) (content : Bytes) : List Effect :=
  match env.create_file path with
  | .ok _ =>
    match env.write_file path content with
    | .ok _ => []
    | .error e => [Effect.log_warn ("Error writing file: " ++ e)]
  | .error e => [Effect.log_warn ("Error creating file: " ++ e)]

/-- Model of `track_from` (src/main.rs:137-160): write the bytes to the scratch path
(failures only logged), then decode with `input::ffmpeg` and cache with
`Memory::new`, propagating either failure with `?`.  The commented-out
`remove_file` is absent, as in the source. -/
def track_from (env : Env) (content : Bytes) (gid : GuildId) (name : String) :
    Except AudioError Track × List Effect :=
  let path := scratch_path env.temp_dir gid name
  let fx := write_log env path content
  match env.ffmpeg path with
  | .error e => (.error e, fx)
  | .ok track_input =>
    match env.memory_new track_input with
    | .error e => (.error e, fx)
    | .ok track => (.ok track, fx)

/-- Model of `save_audio` (src/main.rs:116-133): download the first attachment; on
download error, `warn!` and return `Ok(())`; on success, build the track via
`track_from` (propagating its error with `?`) and insert it into the sound
store.  Returns the updated store, the effects, and the `CommandResult`-like
outcome.  The `attachments.first().expect(..)` is modelled with `head?`; the
`none` branch is unreachable because `set` only calls this with a non-empty
attachment list. -/
def save_audio (env : Env) (store : SoundStore) (msg : MessageM) (gid : GuildId) :
    SoundStore × List Effect × Except AudioError Unit :=
  match msg.attachments.head? with
  | none => (store, [], .ok ())
  | some attach =>
    match env.download attach with
    | .ok content =>
      match track_from env content gid attach.filename with
      | (.ok track, fx) => (store.insert gid track, fx, .ok ())
      | (.error e, fx) => (store, fx, .error e)
    | .error e =>
      (store, [Effect.log_warn ("Error downloading user audio: " ++ e)], .ok ())

/-- The `set` command (src/main.rs:80-114): skip silently outside guilds;
reply `NO_AUDIO_MSG` and stop on zero attachments; reply
`TOO_MUCH_ATTACH_MSG` (and continue) on more than one; then run `save_audio`
and reply `OK_MSG` on `Ok` and `FAIL_MSG` on `Err`. -/
def set (env : Env) (store : SoundStore) (msg : MessageM) :
    SoundStore × List Effect :=
  match msg.guild_id with
  | none => (store, [])
  | some gid =>
    if msg.attachments.isEmpty then
      (store, [Effect.reply NO_AUDIO_MSG])
    else
      let warnFx :=
        if msg.attachments.length > 1 then [Effect.reply TOO_MUCH_ATTACH_MSG] else []
      match save_audio env store msg gid with
      | (store2, fx, .ok _) => (store2, warnFx ++ fx ++ [Effect.reply OK_MSG])
      | (store2, fx, .error _) => (store2, warnFx ++ fx ++ [Effect.reply FAIL_MSG])

/-- The slice of serenity `User` read by the handler. -/
structure UserM where
  bot : Bool
deriving DecidableEq

/-- The slice of serenity `Member` read by the handler. -/
structure MemberM where
  user : UserM
deriving DecidableEq

/-- The slice of serenity `VoiceState` read by the handler: the optional
channel and the optional member info. -/
structure VoiceStateM where
  channel_id : Option ChannelId
  member : Option MemberM
deriving DecidableEq

/-- Model of `is_bot` (src/main.rs:220-226): `true` iff the member info is present and
flagged as a bot; absent member info yields `false`. -/
def is_bot (vs : VoiceStateM) : Bool :=
  match vs.member with
  | some memb => memb.user.bot
  | none => false

/-- Model of `joined_channel` (src/main.rs:228-234): if the old collapsed channel
(`old.and_then(|old| old.channel_id)`) differs from the new channel, return
the new channel, else `none`. -/
def joined_channel (old : Option VoiceStateM) (new : VoiceStateM) :
    Option ChannelId :=
  if old.bind VoiceStateM.channel_id ≠ new.channel_id then new.channel_id
  else none

/-- The join-trigger decision of `voice_state_update` (src/main.rs:177-188):
the bot filter applied before `joined_channel`. -/
def detect (old : Option VoiceStateM) (new : VoiceStateM) : Option ChannelId :=
  if is_bot new then none else joined_channel old new

/-- Oracle for the voice transport: the result component of
`manager.join(gid, channel_id)`. -/
structure VoiceEnv where
  join_result : GuildId → ChannelId → Except String Unit

/-- Model of `voice_state_update` (src/main.rs:170-217): ignore bot updates and
guild-less updates; on a detected channel join, look the guild up in the
sound store; if a sound is set, join the channel, and on join success start
playback of a fresh handle and install the track-end disconnect handler; on
join failure only log. -/
def voice_state_update (venv : VoiceEnv) (store : SoundStore)
    (gid : Option GuildId) (old : Option VoiceStateM) (new : VoiceStateM) :
    List Effect :=
  if is_bot new then []
  else
    match gid with
    | none => []
    | some gid =>
      match joined_channel old new with
      | none => []
      | some channel_id =>
        match store.get gid with
        | none => []
        | some sound =>
          match venv.join_result gid channel_id with
          | .error e =>
            [Effect.join gid channel_id,
             Effect.log_warn ("Error joining channel: " ++ e)]
          | .ok _ =>
            [Effect.join gid channel_id, Effect.play gid sound,
             Effect.schedule_disconnect]

/-! Concrete fixtures used by counterexamples and witnesses. -/

/-- An environment in which every external operation succeeds: the download
yields `[1, 2, 3]`, ffmpeg decodes to input `5`, and caching yields track
`7`. -/
def env_ok : Env where
  temp_dir := "/tmp"
  download := fun _ => .ok [1, 2, 3]
  create_file := fun _ => .ok ()
  write_file := fun _ _ => .ok ()
  ffmpeg := fun _ => .ok 5
  memory_new := fun _ => .ok 7

/-- Like `env_ok` but the attachment download fails. -/
def env_dl_fail : Env :=
  { env_ok with download := fun _ => .error "net" }

/-- Like `env_ok` but creating the scratch file fails (the decode still
succeeds, e.g. off a stale scratch file left by an earlier request). -/
def env_create_fail : Env :=
  { env_ok with create_file := fun _ => .error "disk" }

/-- The empty sound store. -/
def store0 : SoundStore := fun _ => none

/-- A first sample attachment. -/
def att1 : Attachment := ⟨"a.ogg", 0⟩

/-- A second sample attachment. -/
def att2 : Attachment := ⟨"b.ogg", 1⟩

/-- A voice transport whose join always succeeds. -/
def venv_ok : VoiceEnv := ⟨fun _ _ => .ok ()⟩

/-- Decimal digit characters of `n`, most significant first: a structurally
recursive reference unfolding of `Nat.toDigitsCore` (the engine of
`Nat.repr`, which renders the guild id inside `scratch_path`). -/
def decDigits (n : Nat) : List Char :=
  if h : n / 10 = 0 then [Nat.digitChar (n % 10)]
  else decDigits (n / 10) ++ [Nat.digitChar (n % 10)]
decreasing_by exact Nat.div_lt_self (by omega) (by omega)

/-- Numeric value of a decimal digit character. -/
def digitVal (c : Char) : Nat := c.toNat - 48

/-! ## Theorems -/

/-- With enough fuel, `Nat.toDigitsCore` agrees with `decDigits`. -/
theorem toDigitsCore_eq_decDigits (fuel : Nat) :
    ∀ (n : Nat) (acc : List Char), n < fuel →
      Nat.toDigitsCore 10 fuel n acc = decDigits n ++ acc := by
  induction fuel with
  | zero => intro n acc h; omega
  | succ fuel ih =>
    intro n acc h
    rw [decDigits]
    by_cases h10 : n / 10 = 0
    · simp [Nat.toDigitsCore, h10]
    · have hlt : n / 10 < fuel := by
        have := Nat.div_lt_self (show 0 < n by omega) (show 1 < 10 by omega)
        omega
      simp only [Nat.toDigitsCore, h10, if_false]
      rw [ih (n / 10) (Nat.digitChar (n % 10) :: acc) hlt]
      simp [h10, List.append_assoc]

/-- The function `Nat.toDigits 10` agrees with `decDigits`. -/
theorem toDigits_eq_decDigits (n : Nat) : Nat.toDigits 10 n = decDigits n := by
  have h := toDigitsCore_eq_decDigits (n + 1) n [] (by omega)
  simpa [Nat.toDigits] using h

/-- The function `digitVal` inverts `Nat.digitChar` on decimal digits. -/
theorem digitVal_digitChar : ∀ d : Nat, d < 10 → digitVal (Nat.digitChar d) = d := by
  decide

/-- Folding the decimal evaluation over `decDigits n` starting from `acc`
recovers `n` (shifted by the digit count). -/
theorem foldl_digits_decDigits : ∀ n acc : Nat,
    List.foldl (fun a c => 10 * a + digitVal c) acc (decDigits n) =
      acc * 10 ^ (decDigits n).length + n := by
  intro n
  induction n using Nat.strong_induction_on with
  | _ n ih =>
    intro acc
    rw [decDigits]
    by_cases h10 : n / 10 = 0
    · have hn : n < 10 := by omega
      simp [h10, digitVal_digitChar n hn, Nat.mod_eq_of_lt hn]
      omega
    · have hdiv : n / 10 < n :=
        Nat.div_lt_self (show 0 < n by omega) (show 1 < 10 by omega)
      rw [dif_neg h10]
      simp only [List.foldl_append, List.length_append, List.foldl_cons,
        List.foldl_nil, List.length_cons, List.length_nil]
      rw [ih (n / 10) hdiv acc]
      rw [digitVal_digitChar (n % 10) (Nat.mod_lt n (by omega))]
      rw [Nat.zero_add, pow_succ, ← Nat.mul_assoc]
      generalize acc * 10 ^ (decDigits (n / 10)).length = A
      omega

/-- The function `decDigits` is injective. -/
theorem decDigits_injective : Function.Injective decDigits := by
  intro m n h
  have hm := foldl_digits_decDigits m 0
  have hn := foldl_digits_decDigits n 0
  rw [h] at hm
  simp only [Nat.zero_mul, Nat.zero_add] at hm hn
  exact hm ▸ hn

/-- The decimal display `Nat.repr` is injective. -/
theorem nat_repr_injective : Function.Injective Nat.repr := by
  intro m n h
  apply decDigits_injective
  rw [← toDigits_eq_decDigits, ← toDigits_eq_decDigits]
  have hd := congrArg String.data h
  simpa [Nat.repr, List.asString] using hd

/-- String append acts as list append on the underlying data. -/
theorem string_data_append (s t : String) : (s ++ t).data = s.data ++ t.data :=
  rfl

/-- Claim C2, counterexample: the scratch path is NOT unique to the pair
(guild id, filename): the distinct pairs `(1, "2a")` and `(12, "a")` compute
the same path, because the key is the concatenated string. -/
theorem scratch_path_collision_cex :
    scratch_path "/tmp" 1 "2a" = scratch_path "/tmp" 12 "a" ∧
    ((1 : GuildId), "2a") ≠ ((12 : GuildId), "a") :=
  ⟨rfl, by decide⟩

/-- Claim C2, amended: the scratch path is keyed by the concatenation of the
guild id's decimal display and the filename; it separates pairs that share a
component — same guild with different filenames, or same filename with
different guilds, always get different paths — but distinct pairs can
collide in general (see the counterexample). -/
theorem scratch_path_component_injective (tmp : String) (g1 g2 : GuildId)
    (n1 n2 : String) :
    (g1 = g2 → n1 ≠ n2 → scratch_path tmp g1 n1 ≠ scratch_path tmp g2 n2) ∧
    (n1 = n2 → g1 ≠ g2 → scratch_path tmp g1 n1 ≠ scratch_path tmp g2 n2) := by
  constructor
  · rintro rfl hne heq
    apply hne
    have hd := congrArg String.data heq
    simp only [scratch_path, string_data_append] at hd
    exact String.ext (List.append_cancel_left hd)
  · rintro rfl hne heq
    apply hne
    apply nat_repr_injective
    have hd := congrArg String.data heq
    simp only [scratch_path, string_data_append] at hd
    exact String.ext (List.append_cancel_left (List.append_cancel_right hd))

/-- Witness for `scratch_path_component_injective` at concrete inputs. -/
theorem scratch_path_component_injective_witness :
    scratch_path "/tmp" 5 "x.ogg" ≠ scratch_path "/tmp" 5 "y.ogg" ∧
    scratch_path "/tmp" 5 "x.ogg" ≠ scratch_path "/tmp" 6 "x.ogg" :=
  ⟨(scratch_path_component_injective "/tmp" 5 5 "x.ogg" "y.ogg").1 rfl
      (by decide),
   (scratch_path_component_injective "/tmp" 5 6 "x.ogg" "x.ogg").2 rfl
      (by decide)⟩

/-- Claim C5: the join-trigger decision (the bot filter followed by
`joined_channel`) fires with target `c` exactly when the update is not from a
bot, the new channel is present and equals `c`, and it differs from the old
collapsed channel; in every other case (equal channels including both absent,
new channel absent, or a bot member) it does not fire. -/
theorem detect_iff (old : Option VoiceStateM) (vs : VoiceStateM) (c : ChannelId) :
    detect old vs = some c ↔
      is_bot vs = false ∧ vs.channel_id = some c ∧
        old.bind VoiceStateM.channel_id ≠ some c := by
  unfold detect joined_channel
  cases hb : is_bot vs
  · simp only [Bool.false_eq_true, if_false, true_and]
    by_cases h : old.bind VoiceStateM.channel_id = vs.channel_id
    · simp only [h, ne_eq, not_true_eq_false, if_false]
      constructor
      · intro hc
        exact absurd hc (by simp)
      · rintro ⟨h1, h2⟩
        exact absurd h1 h2
    · simp only [ne_eq, h, not_false_eq_true, if_true]
      constructor
      · intro hc
        exact ⟨hc, fun hh => h (hh.trans hc.symm)⟩
      · exact fun hp => hp.1
  · simp [hb]

/-- Claim C6: the sound registry is last-writer-wins: after inserting `a` for
guild `g`, lookups return `a`; after inserting `a` then `b`, lookups return
`b` and (when `a ≠ b`) never `a`. -/
theorem insert_get_last_wins (s : SoundStore) (g : GuildId) (a b : Track) :
    (s.insert g a).get g = some a ∧
    ((s.insert g a).insert g b).get g = some b ∧
    (a ≠ b → ((s.insert g a).insert g b).get g ≠ some a) := by
  refine ⟨?_, ?_, ?_⟩ <;>
    simp only [SoundStore.insert, SoundStore.get, Function.update_same]
  intro h hc
  exact h (Option.some.inj hc).symm

/-- Witness for `insert_get_last_wins` at `g = 5`, `a = 1`, `b = 2`. -/
theorem insert_get_last_wins_witness :
    ((store0.insert 5 1).insert 5 2).get 5 = some 2 ∧
    ((store0.insert 5 1).insert 5 2).get 5 ≠ some 1 :=
  ⟨(insert_get_last_wins store0 5 1 2).2.1,
   (insert_get_last_wins store0 5 1 2).2.2 (by decide)⟩

/-- Claim C7: a guild message with zero attachments gets the `NO_AUDIO_MSG`
reply and processing stops: the returned store is the input store and the
only effect is that reply (in particular the result does not depend on the
download/write/decode oracles, so none of them runs). -/
theorem set_no_attachments (env : Env) (store : SoundStore) (msg : MessageM)
    (gid : GuildId) (hg : msg.guild_id = some gid) (ha : msg.attachments = []) :
    set env store msg = (store, [Effect.reply NO_AUDIO_MSG]) := by
  simp [set, hg, ha]

/-- Witness for `set_no_attachments` on a concrete attachment-less message. -/
theorem set_no_attachments_witness :
    set env_ok store0 ⟨some 1, []⟩ = (store0, [Effect.reply NO_AUDIO_MSG]) :=
  set_no_attachments env_ok store0 ⟨some 1, []⟩ 1 rfl rfl

/-- Claim C9: when the guild has no registered sound, `voice_state_update`
produces no effect at all: no join call is issued and no playback starts. -/
theorem voice_update_no_sound (venv : VoiceEnv) (store : SoundStore)
    (gid : GuildId) (old : Option VoiceStateM) (new : VoiceStateM)
    (h : store.get gid = none) :
    voice_state_update venv store (some gid) old new = [] := by
  unfold voice_state_update
  by_cases hb : is_bot new
  · simp [hb]
  · cases hj : joined_channel old new <;> simp [hb, hj, h]

/-- Witness for `voice_update_no_sound`: a first-connect by a non-bot in a
guild with an empty registry produces no effects. -/
theorem voice_update_no_sound_witness :
    voice_state_update venv_ok store0 (some 2) none ⟨some 3, some ⟨⟨false⟩⟩⟩ = [] :=
  voice_update_no_sound venv_ok store0 2 none ⟨some 3, some ⟨⟨false⟩⟩⟩ rfl

/-- Claim C10: `is_bot` is `true` exactly when member info is present and
flagged as a bot; when member info is absent it is `false`, and such an
update can drive the full join-and-play sequence. -/
theorem is_bot_absent_member :
    (∀ vs : VoiceStateM, vs.member = none → is_bot vs = false) ∧
    (∀ vs : VoiceStateM, is_bot vs = true ↔
      ∃ m, vs.member = some m ∧ m.user.bot = true) ∧
    (∀ (venv : VoiceEnv) (store : SoundStore) (gid : GuildId)
        (old : Option VoiceStateM) (vs : VoiceStateM) (c : ChannelId) (t : Track),
      vs.member = none → joined_channel old vs = some c →
      store.get gid = some t → venv.join_result gid c = .ok () →
      voice_state_update venv store (some gid) old vs =
        [Effect.join gid c, Effect.play gid t, Effect.schedule_disconnect]) := by
  refine ⟨?_, ?_, ?_⟩
  · intro vs h
    simp [is_bot, h]
  · intro vs
    cases h : vs.member with
    | none => simp [is_bot, h]
    | some m =>
      simp [is_bot, h]
  · intro venv store gid old vs c t hm hj hs hr
    have hb : is_bot vs = false := by simp [is_bot, hm]
    unfold voice_state_update
    simp [hb, hj, hs, hr]

/-- Witness for `is_bot_absent_member`: a member-less update joining channel
3 in guild 1, whose registry holds track 7, yields join, play and the
disconnect scheduling. -/
theorem is_bot_absent_member_witness :
    voice_state_update venv_ok (store0.insert 1 7) (some 1) none
        ⟨some 3, none⟩ =
      [Effect.join 1 3, Effect.play 1 7, Effect.schedule_disconnect] :=
  is_bot_absent_member.2.2 venv_ok (store0.insert 1 7) 1 none ⟨some 3, none⟩ 3 7
    rfl rfl (by simp [SoundStore.insert, SoundStore.get, store0]) rfl

/-- The function `save_audio` reads only the head of the attachment list: two messages
with the same first attachment are processed identically. -/
theorem save_audio_head (env : Env) (store : SoundStore) (gid : GuildId)
    (m1 m2 : MessageM) (h : m1.attachments.head? = m2.attachments.head?) :
    save_audio env store m1 gid = save_audio env store m2 gid := by
  unfold save_audio
  rw [h]

/-- The store returned by `set` on a non-empty attachment list is the store
returned by `save_audio`. -/
theorem set_fst_eq (env : Env) (store : SoundStore) (gid : GuildId)
    (atts : List Attachment) (h : atts.isEmpty = false) :
    (set env store ⟨some gid, atts⟩).1 =
      (save_audio env store ⟨some gid, atts⟩ gid).1 := by
  unfold set
  simp only [h, Bool.false_eq_true, if_false]
  rcases hsa : save_audio env store ⟨some gid, atts⟩ gid with ⟨s2, fx, res⟩
  cases res <;> simp [hsa]

/-- Claim C1, counterexample: with a failing download, the `set` handler does
reply — it sends the success confirmation `OK_MSG` (because `save_audio`
returns `Ok(())` on a download error), contradicting "the user receives no
reply of any kind".  The registry is indeed unchanged. -/
theorem set_download_failure_cex :
    (set env_dl_fail store0 ⟨some 1, [att1]⟩).2 =
      [Effect.log_warn "Error downloading user audio: net", Effect.reply OK_MSG] ∧
    (set env_dl_fail store0 ⟨some 1, [att1]⟩).1 = store0 :=
  ⟨rfl, rfl⟩

/-- Claim C1, amended: when the first attachment fails to download, the
failure is logged and the registry is not mutated, but the user receives the
success confirmation reply `OK_MSG` (never the generic failure reply),
because `save_audio` swallows the error and reports success. -/
theorem set_download_failure (env : Env) (store : SoundStore) (gid : GuildId)
    (attach : Attachment) (l : List Attachment) (e : String)
    (hd : env.download attach = .error e) :
    (set env store ⟨some gid, attach :: l⟩).1 = store ∧
    Effect.log_warn ("Error downloading user audio: " ++ e) ∈
      (set env store ⟨some gid, attach :: l⟩).2 ∧
    Effect.reply OK_MSG ∈ (set env store ⟨some gid, attach :: l⟩).2 ∧
    Effect.reply FAIL_MSG ∉ (set env store ⟨some gid, attach :: l⟩).2 := by
  have hOK : FAIL_MSG ≠ OK_MSG := by decide
  have hWarn : FAIL_MSG ≠ TOO_MUCH_ATTACH_MSG := by decide
  unfold set save_audio
  simp only [List.head?_cons, hd, List.isEmpty_cons, Bool.false_eq_true, if_false]
  by_cases hl : (attach :: l).length > 1 <;>
    simp_all [List.length_cons, Effect.reply.injEq]

/-- Witness for `set_download_failure` on a concrete failing download. -/
theorem set_download_failure_witness :
    (set env_dl_fail store0 ⟨some 2, [att2]⟩).1 = store0 ∧
    Effect.log_warn ("Error downloading user audio: " ++ "net") ∈
      (set env_dl_fail store0 ⟨some 2, [att2]⟩).2 ∧
    Effect.reply OK_MSG ∈ (set env_dl_fail store0 ⟨some 2, [att2]⟩).2 ∧
    Effect.reply FAIL_MSG ∉ (set env_dl_fail store0 ⟨some 2, [att2]⟩).2 :=
  set_download_failure env_dl_fail store0 2 att2 [] "net" rfl

/-- Claim C3, counterexample: a message with two attachments is not aborted:
with all external steps succeeding, the registry gains an entry for the
guild (track 7), contradicting "no state mutated". -/
theorem set_multi_attach_cex :
    (set env_ok store0 ⟨some 1, [att1, att2]⟩).1 1 = some 7 ∧
    store0 1 = none :=
  ⟨rfl, rfl⟩

/-- Claim C3, amended: on more than one attachment the warning is reported to
the user but processing continues with the first attachment: when its
download and decode succeed with track `t`, the registry entry for the guild
is replaced by `t`. -/
theorem set_multi_attach_continues (env : Env) (store : SoundStore)
    (gid : GuildId) (a : Attachment) (rest : List Attachment)
    (content : Bytes) (t : Track) (hrest : rest ≠ [])
    (hd : env.download a = .ok content)
    (ht : (track_from env content gid a.filename).1 = .ok t) :
    Effect.reply TOO_MUCH_ATTACH_MSG ∈ (set env store ⟨some gid, a :: rest⟩).2 ∧
    (set env store ⟨some gid, a :: rest⟩).1 = store.insert gid t := by
  have hlen : (a :: rest).length > 1 := by
    have := List.length_pos.mpr hrest
    simp only [List.length_cons]
    omega
  unfold set save_audio
  rcases htf : track_from env content gid a.filename with ⟨res, fx⟩
  rw [htf] at ht
  simp only at ht
  subst ht
  simp [hd, htf, hlen, List.length_pos.mpr hrest]

/-- Witness for `set_multi_attach_continues` on a concrete two-attachment
message. -/
theorem set_multi_attach_continues_witness :
    Effect.reply TOO_MUCH_ATTACH_MSG ∈ (set env_ok store0 ⟨some 1, [att1, att2]⟩).2 ∧
    (set env_ok store0 ⟨some 1, [att1, att2]⟩).1 = store0.insert 1 7 :=
  set_multi_attach_continues env_ok store0 1 att1 [att2] [1, 2, 3] 7
    (by decide) rfl rfl

/-- Claim C4, counterexample: when creating the scratch file fails but the
decode step still succeeds (e.g. off a stale scratch file), the user
receives the success reply, not the generic failure reply, and the registry
IS mutated — contradicting the claim that a scratch-write failure yields the
failure reply and no mutation. -/
theorem set_write_failure_cex :
    (set env_create_fail store0 ⟨some 1, [att1]⟩).2 =
      [Effect.log_warn "Error creating file: disk", Effect.reply OK_MSG] ∧
    (set env_create_fail store0 ⟨some 1, [att1]⟩).1 1 = some 7 ∧
    store0 1 = none :=
  ⟨rfl, rfl, rfl⟩

/-- Claim C4, amended: a scratch-write failure (file creation or write
error) is only logged; processing continues to the decode step, which alone
decides the outcome: if the decode fails the user receives the generic
failure reply and the registry is unchanged, and if it succeeds the registry
is updated and the user receives the confirmation, despite the write
failure. -/
theorem set_write_failure (env : Env) (store : SoundStore) (gid : GuildId)
    (attach : Attachment) (l : List Attachment) (content : Bytes) (m : String)
    (hd : env.download attach = .ok content)
    (hw : write_log env (scratch_path env.temp_dir gid attach.filename) content
        = [Effect.log_warn m]) :
    Effect.log_warn m ∈ (set env store ⟨some gid, attach :: l⟩).2 ∧
    (∀ e2, env.ffmpeg (scratch_path env.temp_dir gid attach.filename) = .error e2 →
      (set env store ⟨some gid, attach :: l⟩).1 = store ∧
      Effect.reply FAIL_MSG ∈ (set env store ⟨some gid, attach :: l⟩).2) ∧
    (∀ i t, env.ffmpeg (scratch_path env.temp_dir gid attach.filename) = .ok i →
      env.memory_new i = .ok t →
      (set env store ⟨some gid, attach :: l⟩).1 = store.insert gid t ∧
      Effect.reply OK_MSG ∈ (set env store ⟨some gid, attach :: l⟩).2) := by
  refine ⟨?_, ?_, ?_⟩
  · unfold set save_audio track_from
    simp only [List.head?_cons, hd, hw]
    rcases hf : env.ffmpeg (scratch_path env.temp_dir gid attach.filename) with e2 | i
    · by_cases hl : (attach :: l).length > 1 <;> simp [hl]
    · rcases hm : env.memory_new i with e3 | t <;>
        by_cases hl : (attach :: l).length > 1 <;> simp [hl, hm]
  · intro e2 hf
    unfold set save_audio track_from
    simp only [List.head?_cons, hd, hw, hf]
    by_cases hl : (attach :: l).length > 1 <;> simp [hl]
  · intro i t hf hm
    unfold set save_audio track_from
    simp only [List.head?_cons, hd, hw, hf, hm]
    by_cases hl : (attach :: l).length > 1 <;> simp [hl]

/-- Witness for `set_write_failure`: concrete run with a failing file
creation and a succeeding decode. -/
theorem set_write_failure_witness :
    Effect.log_warn "Error creating file: disk" ∈
      (set env_create_fail store0 ⟨some 1, [att1]⟩).2 ∧
    (set env_create_fail store0 ⟨some 1, [att1]⟩).1 = store0.insert 1 7 ∧
    Effect.reply OK_MSG ∈ (set env_create_fail store0 ⟨some 1, [att1]⟩).2 := by
  have h := set_write_failure env_create_fail store0 1 att1 [] [1, 2, 3]
    "Error creating file: disk" rfl rfl
  exact ⟨h.1, (h.2.2 5 7 rfl rfl).1, (h.2.2 5 7 rfl rfl).2⟩

/-- Claim C8: on more than one attachment the warning is sent and only the
first attachment matters: the resulting store equals the one obtained from
the same message carrying just the first attachment. -/
theorem set_uses_first_attachment (env : Env) (store : SoundStore)
    (gid : GuildId) (a : Attachment) (rest : List Attachment)
    (hrest : rest ≠ []) :
    Effect.reply TOO_MUCH_ATTACH_MSG ∈ (set env store ⟨some gid, a :: rest⟩).2 ∧
    (set env store ⟨some gid, a :: rest⟩).1 =
      (set env store ⟨some gid, [a]⟩).1 := by
  have hlen : (a :: rest).length > 1 := by
    have := List.length_pos.mpr hrest
    simp only [List.length_cons]
    omega
  constructor
  · unfold set
    simp only [List.isEmpty_cons, Bool.false_eq_true, if_false, hlen, if_true]
    rcases hsa : save_audio env store ⟨some gid, a :: rest⟩ gid with ⟨s2, fx, res⟩
    cases res <;> simp [hsa, hlen]
  · rw [set_fst_eq env store gid (a :: rest) rfl,
      set_fst_eq env store gid [a] rfl]
    exact congrArg Prod.fst (save_audio_head env store gid _ _ rfl)

/-- Witness for `set_uses_first_attachment` on a concrete two-attachment
message. -/
theorem set_uses_first_attachment_witness :
    Effect.reply TOO_MUCH_ATTACH_MSG ∈ (set env_ok store0 ⟨some 2, [att2, att1]⟩).2 ∧
    (set env_ok store0 ⟨some 2, [att2, att1]⟩).1 =
      (set env_ok store0 ⟨some 2, [att2]⟩).1 :=
  set_uses_first_attachment env_ok store0 2 att2 [att1] (by decide)

end DiscordBot
